import Mathlib

/-!
Verification of the kvm userspace control-plane library against its
specification.  The definitions below are a shallow embedding of the
library source: the per-vCPU control page and its exit union
(src/core/pause.rs, src/core/exit.rs, src/core/mod.rs), the MP-state
marshaling (src/core/mpstate.rs, src/core/mod.rs), the capability gate
(src/capability/mod.rs), the version check (src/system/mod.rs), the
dirty-log bitmap sizing (src/machine/mod.rs), the region lookup
(modelled from the spec, see below), and the notification-channel
release paths (src/machine/ioeventfd.rs, src/machine/irqfd.rs).
Machine integers are modelled as Nat; wrap-around is written explicitly
where the source can overflow.
-/

namespace Kvm

/-! ### Kernel ABI constants

Modelled from the spec: the numeric operation codes and constants come
from the kvm-sys crate, which is outside src/; spec section 6 states the
library targets the standard kernel virtualization ABI, whose exit-reason
tags, MP-state values and eventfd flag bits are the fixed values below. -/

abbrev kvmExitUnknown : Nat := 0
abbrev kvmExitException : Nat := 1
abbrev kvmExitIo : Nat := 2
abbrev kvmExitHypercall : Nat := 3
abbrev kvmExitDebug : Nat := 4
abbrev kvmExitHlt : Nat := 5
abbrev kvmExitMmio : Nat := 6
abbrev kvmExitIrqWindowOpen : Nat := 7
abbrev kvmExitShutdown : Nat := 8
abbrev kvmExitFailEntry : Nat := 9
abbrev kvmExitIntr : Nat := 10
abbrev kvmExitSetTpr : Nat := 11
abbrev kvmExitTprAccess : Nat := 12
abbrev kvmExitS390Sieic : Nat := 13
abbrev kvmExitS390Reset : Nat := 14
abbrev kvmExitDcr : Nat := 15
abbrev kvmExitNmi : Nat := 16
abbrev kvmExitInternalError : Nat := 17
abbrev kvmExitOsi : Nat := 18
abbrev kvmExitPaprHcall : Nat := 19
abbrev kvmExitS390Ucontrol : Nat := 20
abbrev kvmExitWatchdog : Nat := 21
abbrev kvmExitS390Tsch : Nat := 22
abbrev kvmExitEpr : Nat := 23
abbrev kvmExitSystemEvent : Nat := 24
abbrev kvmExitS390Stsi : Nat := 25
abbrev kvmExitIoapicEoi : Nat := 26

abbrev kvmExitIoIn : Nat := 0
abbrev kvmExitIoOut : Nat := 1

abbrev kvmIoEventFdFlagDatamatch : Nat := 1
abbrev kvmIoEventFdFlagPio : Nat := 2
abbrev kvmIoEventFdFlagDeassign : Nat := 4
abbrev kvmIoEventFdFlagVirtioCcwNotify : Nat := 8

abbrev kvmIrqFdFlagDeassign : Nat := 1
abbrev kvmIrqFdFlagResample : Nat := 2

abbrev kvmMpStateRunnable : Nat := 0
abbrev kvmMpStateUninitialized : Nat := 1
abbrev kvmMpStateInitReceived : Nat := 2
abbrev kvmMpStateHalted : Nat := 3
abbrev kvmMpStateSipiReceived : Nat := 4
abbrev kvmMpStateStopped : Nat := 5
abbrev kvmMpStateCheckStop : Nat := 6
abbrev kvmMpStateOperating : Nat := 7
abbrev kvmMpStateLoad : Nat := 8

/-! ### Exit union members (kvm_sys::run structures used by src/core/pause.rs)

Each structure mirrors the fields the library source reads or writes.
Member structures that only the accessor layer (src/core/exit.rs) touches
and never inspects are modelled as opaque byte blobs (a single Nat),
since their layouts live in kvm-sys outside src/. -/

structure ExitUnknown where
  hardware_exit_reason : Nat
  deriving DecidableEq, Repr

structure ExitFailEntry where
  hardware_entry_failure_reason : Nat
  deriving DecidableEq, Repr

structure ExitException where
  exception : Nat
  error_code : Nat
  deriving DecidableEq, Repr

structure ExitIo where
  direction : Nat
  size : Nat
  port : Nat
  count : Nat
  data_offset : Nat
  deriving DecidableEq, Repr

structure ExitMmio where
  phys_addr : Nat
  data : List Nat
  len : Nat
  is_write : Nat
  deriving DecidableEq, Repr

structure ExitSystemEvent where
  kind : Nat
  flags : Nat
  deriving DecidableEq, Repr

structure ExitInternal where
  suberror : Nat
  ndata : Nat
  data : List Nat
  deriving DecidableEq, Repr

/-- Read view of the untagged exit union of the control page: reading any
member interprets the same underlying bytes, so the view offers every
member at once.  Members the library only passes through by reference are
opaque blobs. -/
structure Exit where
  hw : ExitUnknown
  fail_entry : ExitFailEntry
  ex : ExitException
  io : ExitIo
  mmio : ExitMmio
  system_event : ExitSystemEvent
  internal : ExitInternal
  hypercall : Nat
  tpr_access : Nat
  s390_sieic : Nat
  s390_reset_flags : Nat
  s390_ucontrol : Nat
  dcr : Nat
  osi : Nat
  papr_hcall : Nat
  s390_tsch : Nat
  epr : Nat
  s390_stsi : Nat
  eoi : Nat
  deriving DecidableEq, Repr

/-- A value written into the exit union: the Rust source constructs the
union with exactly one named member (or with the full padding array set
to zero, constructor pad), so a written value is one member, tagged. -/
inductive ExitW where
  | hw (v : ExitUnknown)
  | fail_entry (v : ExitFailEntry)
  | ex (v : ExitException)
  | io (v : ExitIo)
  | mmio (v : ExitMmio)
  | system_event (v : ExitSystemEvent)
  | internal (v : ExitInternal)
  | pad
  deriving DecidableEq, Repr

/-- Reading the hw member back from a freshly written union value: after
writing the hw member the bytes are that member; after writing the
256-byte padding array with zeros every member reads as zero; after
writing any other member the hw bytes are layout-dependent and not
determined by this model. -/
def ExitW.hwView : ExitW → Option ExitUnknown
  | .hw v => some v
  | .pad => some ⟨0⟩
  | _ => none

/-- The kernel-shared control page record (kvm_sys::Run), generic in the
type standing for the exit union so that the read view (Exit) and a
freshly written value (ExitW) can both inhabit it.  Field order follows
the source; the two padding blobs are kept because merge_into writes
them. -/
structure Run (ε : Type) where
  request_interrupt_window : Nat
  immediate_exit : Nat
  pad1 : Nat
  exit_reason : Nat
  ready_for_interrupt_injection : Nat
  if_flag : Nat
  flags : Nat
  cr8 : Nat
  apic_base : Nat
  exit : ε
  kvm_valid_regs : Nat
  kvm_dirty_regs : Nat
  pad2 : Nat
  deriving DecidableEq, Repr

/-! ### Pause (src/core/pause.rs) -/

inductive Direction where
  | In
  | Out
  deriving DecidableEq, Repr

/-- Embeds impl From of u8 for Direction; the wildcard arm of the source
is an unreachable panic, modelled as none. -/
def directionFromU8 (v : Nat) : Option Direction :=
  if v = kvmExitIoIn then some Direction.In
  else if v = kvmExitIoOut then some Direction.Out
  else none

/-- Embeds impl Into of u8 for Direction. -/
def directionIntoU8 : Direction → Nat
  | Direction.In => kvmExitIoIn
  | Direction.Out => kvmExitIoOut

inductive Pause where
  | Unknown (v : Nat)
  | FailEntry (v : Nat)
  | Exception (exception : Nat) (error_code : Nat)
  | Io (direction : Direction) (size : Nat) (port : Nat) (count : Nat) (data_offset : Nat)
  | Mmio (address : Nat) (data : List Nat) (length : Nat) (is_write : Bool)
  | SystemEvent (kind : Nat) (flags : Nat)
  | InternalError (suberror : Nat)
  | Shutdown
  | Invalid (tag : Nat)
  deriving DecidableEq, Repr

/-- Embeds impl From of sys::Run for Pause (decode).  The arms appear in
source order; the Io arm converts the direction byte through
Direction::from, whose wildcard is an unreachable panic, so the result
is an Option with none marking the panic. -/
def pauseFromRun (run : Run Exit) : Option Pause :=
  if run.exit_reason = kvmExitUnknown then
    some (Pause.Unknown run.exit.hw.hardware_exit_reason)
  else if run.exit_reason = kvmExitFailEntry then
    some (Pause.FailEntry run.exit.fail_entry.hardware_entry_failure_reason)
  else if run.exit_reason = kvmExitException then
    some (Pause.Exception run.exit.ex.exception run.exit.ex.error_code)
  else if run.exit_reason = kvmExitIo then
    (directionFromU8 run.exit.io.direction).map fun d =>
      Pause.Io d run.exit.io.size run.exit.io.port run.exit.io.count run.exit.io.data_offset
  else if run.exit_reason = kvmExitMmio then
    some (Pause.Mmio run.exit.mmio.phys_addr run.exit.mmio.data run.exit.mmio.len
      (run.exit.mmio.is_write != 0))
  else if run.exit_reason = kvmExitSystemEvent then
    some (Pause.SystemEvent run.exit.system_event.kind run.exit.system_event.flags)
  else if run.exit_reason = kvmExitInternalError then
    some (Pause.InternalError run.exit.internal.suberror)
  else if run.exit_reason = kvmExitShutdown then
    some Pause.Shutdown
  else
    some (Pause.Invalid run.exit_reason)

/-- Embeds impl Into of (u32, sys::Exit) for Pause (encode).  Both the
Shutdown and Invalid arms write the full padding array with zeros. -/
def pauseSplit : Pause → Nat × ExitW
  | Pause.Unknown v => (kvmExitUnknown, ExitW.hw ⟨v⟩)
  | Pause.FailEntry v => (kvmExitFailEntry, ExitW.fail_entry ⟨v⟩)
  | Pause.Exception exception error_code => (kvmExitException, ExitW.ex ⟨exception, error_code⟩)
  | Pause.Io direction size port count data_offset =>
      (kvmExitIo, ExitW.io ⟨directionIntoU8 direction, size, port, count, data_offset⟩)
  | Pause.Mmio address data length is_write =>
      (kvmExitMmio, ExitW.mmio ⟨address, data, length, if is_write then 1 else 0⟩)
  | Pause.SystemEvent kind flags => (kvmExitSystemEvent, ExitW.system_event ⟨kind, flags⟩)
  | Pause.InternalError suberror =>
      (kvmExitInternalError, ExitW.internal ⟨suberror, 0, List.replicate 16 0⟩)
  | Pause.Shutdown => (kvmExitShutdown, ExitW.pad)
  | Pause.Invalid v => (v, ExitW.pad)

/-- Embeds merge_into (src/core/mod.rs): splits the pause into tag and
union payload and rebuilds the control page, copying every other field
from the previous page and zeroing the two padding blobs, exactly as the
source struct literal does. -/
def merge_into (run : Run Exit) (pause : Pause) : Run ExitW :=
  let split := pauseSplit pause
  { request_interrupt_window := run.request_interrupt_window
    immediate_exit := run.immediate_exit
    pad1 := 0
    exit_reason := split.1
    ready_for_interrupt_injection := run.ready_for_interrupt_injection
    if_flag := run.if_flag
    flags := run.flags
    cr8 := run.cr8
    apic_base := run.apic_base
    exit := split.2
    kvm_valid_regs := run.kvm_valid_regs
    kvm_dirty_regs := run.kvm_dirty_regs
    pad2 := 0 }

/-- The exit tags the Pause decoder recognizes, in source match order. -/
def pauseRecognizedTags : List Nat :=
  [kvmExitUnknown, kvmExitFailEntry, kvmExitException, kvmExitIo, kvmExitMmio,
   kvmExitSystemEvent, kvmExitInternalError, kvmExitShutdown]

/-! ### Lower accessor layer (src/core/exit.rs) -/

/-- Borrowed view of one union member, mirroring enum Exit of
src/core/exit.rs.  Members the library never inspects carry their opaque
blob. -/
inductive ExitView where
  | Hw (v : ExitUnknown)
  | FailEntry (v : ExitFailEntry)
  | Ex (v : ExitException)
  | Io (v : ExitIo)
  | Mmio (v : ExitMmio)
  | Hypercall (v : Nat)
  | TprAccess (v : Nat)
  | S390Sieic (v : Nat)
  | S390ResetFlags (v : Nat)
  | S390Ucontrol (v : Nat)
  | Dcr (v : Nat)
  | Internal (v : ExitInternal)
  | Osi (v : Nat)
  | PaprHcall (v : Nat)
  | S390Tsch (v : Nat)
  | Epr (v : Nat)
  | SystemEvent (v : ExitSystemEvent)
  | S390Stsi (v : Nat)
  | Eoi (v : Nat)
  deriving DecidableEq, Repr

/-- Embeds Exit::from (src/core/exit.rs): the lower accessor layer maps a
reason tag and the raw union to a typed member view, yielding none on the
wildcard arm.  Arms appear in source order. -/
def exitFrom (reason : Nat) (raw : Exit) : Option ExitView :=
  if reason = kvmExitUnknown then some (ExitView.Hw raw.hw)
  else if reason = kvmExitFailEntry then some (ExitView.FailEntry raw.fail_entry)
  else if reason = kvmExitException then some (ExitView.Ex raw.ex)
  else if reason = kvmExitIo then some (ExitView.Io raw.io)
  else if reason = kvmExitMmio then some (ExitView.Mmio raw.mmio)
  else if reason = kvmExitHypercall then some (ExitView.Hypercall raw.hypercall)
  else if reason = kvmExitTprAccess then some (ExitView.TprAccess raw.tpr_access)
  else if reason = kvmExitS390Sieic then some (ExitView.S390Sieic raw.s390_sieic)
  else if reason = kvmExitS390Reset then some (ExitView.S390ResetFlags raw.s390_reset_flags)
  else if reason = kvmExitS390Ucontrol then some (ExitView.S390Ucontrol raw.s390_ucontrol)
  else if reason = kvmExitDcr then some (ExitView.Dcr raw.dcr)
  else if reason = kvmExitInternalError then some (ExitView.Internal raw.internal)
  else if reason = kvmExitOsi then some (ExitView.Osi raw.osi)
  else if reason = kvmExitPaprHcall then some (ExitView.PaprHcall raw.papr_hcall)
  else if reason = kvmExitS390Tsch then some (ExitView.S390Tsch raw.s390_tsch)
  else if reason = kvmExitEpr then some (ExitView.Epr raw.epr)
  else if reason = kvmExitSystemEvent then some (ExitView.SystemEvent raw.system_event)
  else if reason = kvmExitS390Stsi then some (ExitView.S390Stsi raw.s390_stsi)
  else if reason = kvmExitIoapicEoi then some (ExitView.Eoi raw.eoi)
  else none

/-- The tags Exit::from recognizes, in source match order. -/
def exitRecognizedTags : List Nat :=
  [kvmExitUnknown, kvmExitFailEntry, kvmExitException, kvmExitIo, kvmExitMmio,
   kvmExitHypercall, kvmExitTprAccess, kvmExitS390Sieic, kvmExitS390Reset,
   kvmExitS390Ucontrol, kvmExitDcr, kvmExitInternalError, kvmExitOsi,
   kvmExitPaprHcall, kvmExitS390Tsch, kvmExitEpr, kvmExitSystemEvent,
   kvmExitS390Stsi, kvmExitIoapicEoi]

/-- Agreement between a freshly written union value and the original read
view, on the payload fields the Pause variant for the given tag exposes.
Variants that expose a member completely require that member verbatim;
the Mmio variant exposes is_write as a boolean, so the byte agrees up to
boolean normalization; the InternalError variant exposes only suberror;
the Shutdown variant exposes no payload. -/
def exposedPayloadAgrees (tag : Nat) (e : Exit) (w : ExitW) : Prop :=
  if tag = kvmExitUnknown then w = ExitW.hw e.hw
  else if tag = kvmExitFailEntry then w = ExitW.fail_entry e.fail_entry
  else if tag = kvmExitException then w = ExitW.ex e.ex
  else if tag = kvmExitIo then w = ExitW.io e.io
  else if tag = kvmExitMmio then
    match w with
    | ExitW.mmio m =>
        m.phys_addr = e.mmio.phys_addr ∧ m.data = e.mmio.data ∧ m.len = e.mmio.len ∧
          (m.is_write ≠ 0 ↔ e.mmio.is_write ≠ 0)
    | _ => False
  else if tag = kvmExitSystemEvent then w = ExitW.system_event e.system_event
  else if tag = kvmExitInternalError then
    match w with
    | ExitW.internal i => i.suberror = e.internal.suberror
    | _ => False
  else if tag = kvmExitShutdown then True
  else False

/-! ### MpState (src/core/mpstate.rs, src/core/mod.rs) -/

inductive MpState where
  | Runnable
  | Uninitialized
  | InitReceived
  | Halted
  | SipiReceived
  | Stopped
  | CheckStop
  | Operating
  | Load
  deriving DecidableEq, Repr

/-- Embeds impl Into of u32 for MpState. -/
def mpStateIntoU32 : MpState → Nat
  | MpState.Runnable => kvmMpStateRunnable
  | MpState.Uninitialized => kvmMpStateUninitialized
  | MpState.InitReceived => kvmMpStateInitReceived
  | MpState.Halted => kvmMpStateHalted
  | MpState.SipiReceived => kvmMpStateSipiReceived
  | MpState.Stopped => kvmMpStateStopped
  | MpState.CheckStop => kvmMpStateCheckStop
  | MpState.Operating => kvmMpStateOperating
  | MpState.Load => kvmMpStateLoad

/-- Embeds impl From of u32 for MpState; the wildcard arm of the source
is an unreachable panic, modelled as none. -/
def mpStateFromU32 (value : Nat) : Option MpState :=
  if value = kvmMpStateRunnable then some MpState.Runnable
  else if value = kvmMpStateUninitialized then some MpState.Uninitialized
  else if value = kvmMpStateInitReceived then some MpState.InitReceived
  else if value = kvmMpStateHalted then some MpState.Halted
  else if value = kvmMpStateSipiReceived then some MpState.SipiReceived
  else if value = kvmMpStateStopped then some MpState.Stopped
  else if value = kvmMpStateCheckStop then some MpState.CheckStop
  else if value = kvmMpStateOperating then some MpState.Operating
  else if value = kvmMpStateLoad then some MpState.Load
  else none

/-- The out-structure kvm_get_mp_state fills (kvm_sys::MpState). -/
structure SysMpState where
  mp_state : Nat
  deriving DecidableEq, Repr

/-- Embeds Core::mp_state (src/core/mod.rs).  The kernel call writes the
lifecycle state into the out-structure and the successful call result is
the raw ioctl return value (0 on success for this operation, per the ABI
the spec names in section 6; kvm-sys is outside src/).  The source maps
that ioctl return value, not the written out-structure, through
MpState::from: the map closure receives the Ok value of kvm_get_mp_state
and the state variable is never read back. -/
def core_mp_state (ioctlReturn : Nat) (written : SysMpState) : Option MpState :=
  mpStateFromU32 ioctlReturn

/-- Embeds Core::set_mp_state (src/core/mod.rs): the argument is
marshaled through Into of u32 and handed to the kernel verbatim. -/
def core_set_mp_state (mp_state : MpState) : SysMpState :=
  { mp_state := mpStateIntoU32 mp_state }

/-! ### Capability gate (src/capability/mod.rs) -/

inductive CapabilityKind where
  | IoEventFd
  | IrqChip
  | IrqFd
  | SetTssAddr
  | SetIdentityMapAddr
  | MemorySlotCount
  deriving DecidableEq, Repr

inductive KvmError where
  | KvmCapabilityFailError (kind : CapabilityKind)
  | KvmCapabilityError (op : String)
  | InvalidVersionError (got : Int) (expected : Int)
  | SystemApiError (op : String)
  deriving DecidableEq, Repr

/-- One underlying kernel call issued by the capability gate. -/
inductive CapCall where
  | check (kind : CapabilityKind)
  | enable (kind : CapabilityKind)
  deriving DecidableEq, Repr

def CapCall.isEnable : CapCall → Bool
  | CapCall.enable _ => true
  | _ => false

/-- Embeds Capability::ensure_capability (src/capability/mod.rs).  The
outcome of the underlying check_capability call is a parameter; the
question-mark operator propagates its error.  The second component is
the list of underlying calls the body issues: exactly one check and
never an enable. -/
def ensure_capability (kind : CapabilityKind) (check : Except KvmError Int) :
    Except KvmError Unit × List CapCall :=
  (match check with
   | Except.error e => Except.error e
   | Except.ok v =>
       if v ≠ 1 then Except.error (KvmError.KvmCapabilityFailError kind) else Except.ok (),
   [CapCall.check kind])

/-! ### Version check (src/system/mod.rs) -/

/-- Embeds System::verify_api_version.  The reported version (the Ok
value of api_version, or its error) is a parameter. -/
def verify_api_version (version : Except KvmError Int) : Except KvmError Unit :=
  match version with
  | Except.error e => Except.error e
  | Except.ok value =>
      if value ≠ 12 then Except.error (KvmError.InvalidVersionError value 12) else Except.ok ()

/-! ### Dirty-log bitmap sizing (src/machine/mod.rs) -/

/-- Machine word mask: usize is 64 bits on the targeted hosts. -/
def usizeMask : Nat := 2 ^ 64 - 1

/-- Embeds the bitmap-length computation of Machine::dirty_log: the
number of u64 entries of the vector handed to the kernel.  The source
computes pages = (size + (4096 - 1)) >> 12 and then
((pages + (64 - 1)) & !64) / 8, where !64 is the bitwise complement of
64 on usize; additions wrap at the word size. -/
def dirty_log_len (size : Nat) : Nat :=
  let pages := ((size + (4096 - 1)) % 2 ^ 64) >>> 12
  (((pages + (64 - 1)) % 2 ^ 64) &&& (usizeMask ^^^ 64)) / 8

/-- Number of 64-bit words actually needed for one dirty bit per
4096-byte page of the given size. -/
def dirty_log_required (size : Nat) : Nat :=
  ((size + 4095) / 4096 + 63) / 64

/-! ### Region lookup

Modelled from the spec: the Machine in src/ keeps no region table and
has no lookup (set_region only issues the kernel registration call), so
RegionTable::locate is modelled from spec section 4.2: entries are
appended on mount in insertion order, and locate performs a linear scan
of the entries in that order, returning the first whose half-open range
contains the query address, as the pair of the backing slab and the
offset address minus entry address. -/

structure RegionEntry where
  guest_address : Nat
  slab : Nat
  length : Nat
  slot : Nat
  deriving DecidableEq, Repr

/-- Modelled from the spec: locate(address), linear scan in insertion
order, first containing entry wins, offset relative to the entry base. -/
def locate (entries : List RegionEntry) (address : Nat) : Option (Nat × Nat) :=
  (entries.find? fun e =>
      decide (e.guest_address ≤ address) && decide (address < e.guest_address + e.length)).map
    fun e => (e.slab, address - e.guest_address)

/-- The two deliberately overlapping regions named by the spec, mounted
in insertion order: R1 = (addr 0x1000, len 0x1000, slot 1) backed by
slab 1, then R2 = (addr 0x1000, len 0x1000, slot 2) backed by slab 2. -/
def regionR1 : RegionEntry := { guest_address := 0x1000, slab := 1, length := 0x1000, slot := 1 }

def regionR2 : RegionEntry := { guest_address := 0x1000, slab := 2, length := 0x1000, slot := 2 }

def overlapTable : List RegionEntry := [regionR1, regionR2]

/-! ### Notification channels (src/machine/ioeventfd.rs, src/machine/irqfd.rs) -/

/-- One descriptor-level action of a notification channel lifecycle. -/
inductive KernelCall where
  | ioeventfd (addr : Nat) (len : Nat) (datamatch : Nat) (flags : Nat) (fd : Int)
  | irqfd (gsi : Nat) (flags : Nat) (fd : Int)
  | closeFd (fd : Int)
  deriving DecidableEq, Repr

/-- Embeds Machine::ioeventfd_mod (src/machine/mod.rs): builds the
registration structure from its arguments and issues exactly one
kvm_ioeventfd call. -/
def ioeventfd_mod (addr : Nat) (len : Nat) (datamatch : Nat) (flags : Nat) (fd : Int) :
    List KernelCall :=
  [KernelCall.ioeventfd addr len datamatch flags fd]

/-- Modelled from the spec: Machine::irqfd_mod is referenced by the Drop
of IrqFd (src/machine/irqfd.rs) but its body is not under src/; per spec
section 4.4 the irqfd registration is symmetric to the ioeventfd one,
keyed by the interrupt-line id, so it issues exactly one kvm_irqfd call
carrying the line, flags and descriptor. -/
def irqfd_mod (gsi : Nat) (flags : Nat) (fd : Int) : List KernelCall :=
  [KernelCall.irqfd gsi flags fd]

/-- The state of a machine-level IoEventFd handle
(src/machine/ioeventfd.rs): registration key and descriptor. -/
structure IoEventFdHandle where
  address : Nat
  length : Nat
  data : Nat
  flags : Nat
  fd : Int
  deriving DecidableEq, Repr

/-- The state of an IrqFd handle (src/machine/irqfd.rs). -/
structure IrqFdHandle where
  gsi : Nat
  flags : Nat
  fd : Int
  deriving DecidableEq, Repr

/-- Embeds impl Drop for IoEventFd: the drop body issues one
ioeventfd_mod call with the stored address, length and datamatch and the
stored flags with the DEASSIGN bit forced, and afterwards the owned File
field is dropped, closing the descriptor. -/
def ioEventFdDrop (e : IoEventFdHandle) : List KernelCall :=
  ioeventfd_mod e.address e.length e.data (e.flags ||| kvmIoEventFdFlagDeassign) e.fd ++
    [KernelCall.closeFd e.fd]

/-- Embeds impl Drop for IrqFd: the drop body issues one irqfd_mod call
with the stored line id and the stored flags with the DEASSIGN bit
forced, and afterwards the owned File field is dropped, closing the
descriptor. -/
def irqFdDrop (e : IrqFdHandle) : List KernelCall :=
  irqfd_mod e.gsi (e.flags ||| kvmIrqFdFlagDeassign) e.fd ++ [KernelCall.closeFd e.fd]

/-- A deassign ioeventfd registration matching the key of the handle. -/
def isIoDeassignFor (e : IoEventFdHandle) : KernelCall → Bool
  | KernelCall.ioeventfd addr len datamatch flags fd =>
      decide (addr = e.address) && decide (len = e.length) && decide (datamatch = e.data) &&
        flags.testBit 2 && decide (fd = e.fd)
  | _ => false

/-- A deassign irqfd registration matching the line of the handle. -/
def isIrqDeassignFor (e : IrqFdHandle) : KernelCall → Bool
  | KernelCall.irqfd gsi flags fd =>
      decide (gsi = e.gsi) && flags.testBit 0 && decide (fd = e.fd)
  | _ => false

def KernelCall.isClose : KernelCall → Bool
  | KernelCall.closeFd _ => true
  | _ => false

/-! ### Theorems -/

/-- C4: the capability-ensure operation succeeds if and only if the
underlying capability query returns exactly 1; any other value fails
with a missing-capability error naming the capability, and the body
issues only the single query call, never an enable. -/
theorem ensure_capability_iff_one (kind : CapabilityKind) (v : Int) :
    ((ensure_capability kind (Except.ok v)).1 = Except.ok () ↔ v = 1) ∧
    (ensure_capability kind (Except.ok v)).1 =
      (if v = 1 then Except.ok ()
       else Except.error (KvmError.KvmCapabilityFailError kind)) ∧
    ∀ check : Except KvmError Int,
      (ensure_capability kind check).2 = [CapCall.check kind] := by
  refine ⟨?_, ?_, fun check => rfl⟩ <;>
    by_cases h : v = 1 <;> simp [ensure_capability, h]

/-- C5: set_pause (through merge_into) writes only the exit-reason tag
and the exit union payload; the immediate-exit flag, the
interrupt-window request flag, the interrupt-injection-readiness flag,
if_flag, flags, cr8, apic_base, kvm_valid_regs and kvm_dirty_regs keep
their previous values, for every prior control-page state and every
Pause. -/
theorem set_pause_frame (run : Run Exit) (pause : Pause) :
    (merge_into run pause).immediate_exit = run.immediate_exit ∧
    (merge_into run pause).request_interrupt_window = run.request_interrupt_window ∧
    (merge_into run pause).ready_for_interrupt_injection =
      run.ready_for_interrupt_injection ∧
    (merge_into run pause).if_flag = run.if_flag ∧
    (merge_into run pause).flags = run.flags ∧
    (merge_into run pause).cr8 = run.cr8 ∧
    (merge_into run pause).apic_base = run.apic_base ∧
    (merge_into run pause).kvm_valid_regs = run.kvm_valid_regs ∧
    (merge_into run pause).kvm_dirty_regs = run.kvm_dirty_regs ∧
    (merge_into run pause).exit_reason = (pauseSplit pause).1 ∧
    (merge_into run pause).exit = (pauseSplit pause).2 :=
  ⟨rfl, rfl, rfl, rfl, rfl, rfl, rfl, rfl, rfl, rfl, rfl⟩

/-- C6: releasing a notification channel issues exactly one deassign
registration, carrying the same address, length and datamatch (or the
same interrupt line) with the DEASSIGN flag set, and it is issued before
the descriptor is closed: the release trace is exactly the deassign call
followed by the close. -/
theorem notification_release_single_deassign (e : IoEventFdHandle) (f : IrqFdHandle) :
    (ioEventFdDrop e).countP (isIoDeassignFor e) = 1 ∧
    ioEventFdDrop e =
      [KernelCall.ioeventfd e.address e.length e.data
        (e.flags ||| kvmIoEventFdFlagDeassign) e.fd,
       KernelCall.closeFd e.fd] ∧
    (irqFdDrop f).countP (isIrqDeassignFor f) = 1 ∧
    irqFdDrop f =
      [KernelCall.irqfd f.gsi (f.flags ||| kvmIrqFdFlagDeassign) f.fd,
       KernelCall.closeFd f.fd] := by
  refine ⟨?_, rfl, ?_, rfl⟩ <;>
    simp [ioEventFdDrop, irqFdDrop, ioeventfd_mod, irqfd_mod, isIoDeassignFor,
      isIrqDeassignFor, List.countP_cons, Nat.testBit_lor] <;>
    exact fun _ => by decide

/-- C7: the API-version check succeeds if and only if the reported
version equals 12; any other reported value fails with a
version-mismatch error carrying the actual value and the expected 12. -/
theorem verify_api_version_iff_twelve (v : Int) :
    (verify_api_version (Except.ok v) = Except.ok () ↔ v = 12) ∧
    verify_api_version (Except.ok v) =
      (if v = 12 then Except.ok ()
       else Except.error (KvmError.InvalidVersionError v 12)) := by
  by_cases h : v = 12 <;> simp [verify_api_version, h]

/-- C8: evaluation of Core::mp_state at the failing input.  The kernel
reports the Halted lifecycle state by writing 3 into the out-structure
while the successful ioctl returns 0; the source feeds the ioctl return
value, not the written state, to MpState::from, so the caller receives
Runnable instead of Halted: the numeric state the kernel returned is not
passed through. -/
theorem mp_state_discards_kernel_value :
    core_mp_state 0 { mp_state := kvmMpStateHalted } = some MpState.Runnable ∧
    mpStateFromU32 kvmMpStateHalted = some MpState.Halted ∧
    MpState.Runnable ≠ MpState.Halted ∧
    mpStateFromU32 9 = none := by
  refine ⟨rfl, rfl, by decide, rfl⟩

/-- C9: evaluation of the dirty-log bitmap sizing at the failing input.
For size 4096 one page must be tracked, so at least one 64-bit word is
required, but the source computes ((1 + 63) AND NOT 64) / 8 = 0 and
allocates an empty vector. -/
theorem dirty_log_len_zero_at_one_page :
    dirty_log_len 4096 = 0 ∧ dirty_log_required 4096 = 1 := by
  constructor <;> rfl

/-- Marshaling inverse: a direction byte accepted by Direction::from is
reproduced exactly by Direction::into. -/
theorem directionIntoU8_fromU8 {v : Nat} {d : Direction}
    (h : directionFromU8 v = some d) : directionIntoU8 d = v := by
  unfold directionFromU8 at h
  split_ifs at h with h0 h1
  · injection h with h2
    subst h2
    subst h0
    rfl
  · injection h with h2
    subst h2
    subst h1
    rfl

/-- C1: for every recognized exit tag, decoding the control page into a
Pause and re-encoding the Pause reproduces the exit-reason tag exactly
and the union payload on every field the variant exposes (the Mmio
variant exposes is_write as a boolean and the InternalError variant
exposes only suberror, so agreement on those is agreement on the exposed
content). -/
theorem pause_roundtrip_recognized (run : Run Exit) (p : Pause)
    (htag : run.exit_reason ∈ pauseRecognizedTags)
    (hdec : pauseFromRun run = some p) :
    (pauseSplit p).1 = run.exit_reason ∧
    exposedPayloadAgrees run.exit_reason run.exit (pauseSplit p).2 := by
  have hmem : run.exit_reason = kvmExitUnknown ∨ run.exit_reason = kvmExitFailEntry ∨
      run.exit_reason = kvmExitException ∨ run.exit_reason = kvmExitIo ∨
      run.exit_reason = kvmExitMmio ∨ run.exit_reason = kvmExitSystemEvent ∨
      run.exit_reason = kvmExitInternalError ∨ run.exit_reason = kvmExitShutdown := by
    simpa [pauseRecognizedTags] using htag
  unfold pauseFromRun at hdec
  rcases hmem with h | h | h | h | h | h | h | h
  · rw [h] at hdec ⊢
    simp only [reduceIte] at hdec
    injection hdec with hdec
    subst hdec
    exact ⟨rfl, rfl⟩
  · rw [h] at hdec ⊢
    simp only [reduceIte] at hdec
    injection hdec with hdec
    subst hdec
    exact ⟨rfl, rfl⟩
  · rw [h] at hdec ⊢
    simp only [reduceIte] at hdec
    injection hdec with hdec
    subst hdec
    exact ⟨rfl, rfl⟩
  · rw [h] at hdec ⊢
    simp only [reduceIte] at hdec
    cases hdir : directionFromU8 run.exit.io.direction with
    | none =>
        rw [hdir] at hdec
        exact Option.noConfusion hdec
    | some d =>
        rw [hdir] at hdec
        simp only [Option.map] at hdec
        injection hdec with hdec
        subst hdec
        refine ⟨rfl, ?_⟩
        show ExitW.io _ = ExitW.io run.exit.io
        rw [directionIntoU8_fromU8 hdir]
  · rw [h] at hdec ⊢
    simp only [reduceIte] at hdec
    injection hdec with hdec
    subst hdec
    refine ⟨rfl, ?_⟩
    refine ⟨rfl, rfl, rfl, ?_⟩
    by_cases hw0 : run.exit.mmio.is_write = 0 <;> simp [hw0]
  · rw [h] at hdec ⊢
    simp only [reduceIte] at hdec
    injection hdec with hdec
    subst hdec
    exact ⟨rfl, rfl⟩
  · rw [h] at hdec ⊢
    simp only [reduceIte] at hdec
    injection hdec with hdec
    subst hdec
    exact ⟨rfl, rfl⟩
  · rw [h] at hdec ⊢
    simp only [reduceIte] at hdec
    injection hdec with hdec
    subst hdec
    exact ⟨rfl, trivial⟩

/-- An exit union whose bytes are all zero. -/
def exitZero : Exit :=
  { hw := ⟨0⟩, fail_entry := ⟨0⟩, ex := ⟨0, 0⟩, io := ⟨0, 0, 0, 0, 0⟩,
    mmio := ⟨0, List.replicate 8 0, 0, 0⟩, system_event := ⟨0, 0⟩,
    internal := ⟨0, 0, List.replicate 16 0⟩, hypercall := 0, tpr_access := 0,
    s390_sieic := 0, s390_reset_flags := 0, s390_ucontrol := 0, dcr := 0, osi := 0,
    papr_hcall := 0, s390_tsch := 0, epr := 0, s390_stsi := 0, eoi := 0 }

/-- A control page paused on a one-byte-wide port write to 0x3f8. -/
def runIoSample : Run Exit :=
  { request_interrupt_window := 1, immediate_exit := 0, pad1 := 0,
    exit_reason := kvmExitIo, ready_for_interrupt_injection := 1, if_flag := 1,
    flags := 0, cr8 := 0, apic_base := 0xfee00000,
    exit := { exitZero with io := ⟨kvmExitIoOut, 2, 0x3f8, 1, 4096⟩ },
    kvm_valid_regs := 0, kvm_dirty_regs := 0, pad2 := 0 }

theorem pause_roundtrip_recognized_witness :
    (pauseSplit (Pause.Io Direction.Out 2 0x3f8 1 4096)).1 = runIoSample.exit_reason ∧
    exposedPayloadAgrees runIoSample.exit_reason runIoSample.exit
      (pauseSplit (Pause.Io Direction.Out 2 0x3f8 1 4096)).2 :=
  pause_roundtrip_recognized runIoSample (Pause.Io Direction.Out 2 0x3f8 1 4096)
    (by decide) (by decide)

/-- A control page carrying the unrecognized tag 42 with a nonzero
payload byte pattern (the hw view reads 99). -/
def runInvalidSample : Run Exit :=
  { request_interrupt_window := 0, immediate_exit := 0, pad1 := 0, exit_reason := 42,
    ready_for_interrupt_injection := 0, if_flag := 0, flags := 0, cr8 := 0,
    apic_base := 0, exit := { exitZero with hw := ⟨99⟩ }, kvm_valid_regs := 0,
    kvm_dirty_regs := 0, pad2 := 0 }

/-- C2 counterexample: decoding the tag-42 page yields Invalid 42, but
re-encoding Invalid 42 writes the 256-byte padding array with zeros, so
the hw view of the re-encoded union reads 0 while the original payload
read 99 — the opaque payload bytes are not preserved.  Moreover for the
tag 3 (hypercall), which the Pause layer does not recognize, the lower
accessor layer yields Some, not None. -/
theorem pause_invalid_counterexample :
    pauseFromRun runInvalidSample = some (Pause.Invalid 42) ∧
    runInvalidSample.exit.hw.hardware_exit_reason = 99 ∧
    ExitW.hwView (pauseSplit (Pause.Invalid 42)).2 = some ⟨0⟩ ∧
    (exitFrom kvmExitHypercall runInvalidSample.exit).isSome = true := by
  refine ⟨by decide, rfl, rfl, rfl⟩

/-- C2 amended: for every tag outside the Pause-recognized set the
decode does not fail or panic and yields Invalid of the tag, and
re-encoding that value preserves the tag while writing an all-zero
payload; the lower accessor layer yields None for every tag outside its
own (larger) recognized set. -/
theorem pause_invalid_amended :
    (∀ run : Run Exit, run.exit_reason ∉ pauseRecognizedTags →
        pauseFromRun run = some (Pause.Invalid run.exit_reason) ∧
        pauseSplit (Pause.Invalid run.exit_reason) = (run.exit_reason, ExitW.pad)) ∧
    (∀ (reason : Nat) (raw : Exit), reason ∉ exitRecognizedTags →
        exitFrom reason raw = none) := by
  constructor
  · intro run h
    simp only [pauseRecognizedTags, List.mem_cons, List.not_mem_nil, or_false,
      not_or] at h
    obtain ⟨p1, p2, p3, p4, p5, p6, p7, p8⟩ := h
    refine ⟨?_, rfl⟩
    unfold pauseFromRun
    rw [if_neg p1, if_neg p2, if_neg p3, if_neg p4, if_neg p5, if_neg p6, if_neg p7,
      if_neg p8]
  · intro reason raw h
    simp only [exitRecognizedTags, List.mem_cons, List.not_mem_nil, or_false,
      not_or] at h
    obtain ⟨e1, e2, e3, e4, e5, e6, e7, e8, e9, e10, e11, e12, e13, e14, e15, e16,
      e17, e18, e19⟩ := h
    unfold exitFrom
    rw [if_neg e1, if_neg e2, if_neg e3, if_neg e4, if_neg e5, if_neg e6, if_neg e7,
      if_neg e8, if_neg e9, if_neg e10, if_neg e11, if_neg e12, if_neg e13, if_neg e14,
      if_neg e15, if_neg e16, if_neg e17, if_neg e18, if_neg e19]

theorem pause_invalid_amended_witness :
    (pauseFromRun runInvalidSample = some (Pause.Invalid runInvalidSample.exit_reason) ∧
     pauseSplit (Pause.Invalid runInvalidSample.exit_reason) =
       (runInvalidSample.exit_reason, ExitW.pad)) ∧
    exitFrom 42 runInvalidSample.exit = none :=
  ⟨pause_invalid_amended.1 runInvalidSample (by decide),
   pause_invalid_amended.2 42 runInvalidSample.exit (by decide)⟩

/-- C3 counterexample: with the two deliberately overlapping regions
mounted in order R1 then R2, the spec-modelled lookup at 0x1000 resolves
to R1 (the first match of the linear scan in insertion order, backing
slab 1, offset 0) and not to R2, the entry with the higher slot. -/
theorem locate_overlap_counterexample :
    locate overlapTable 0x1000 = some (regionR1.slab, 0) ∧
    ¬ locate overlapTable 0x1000 = some (regionR2.slab, 0) := by
  refine ⟨by decide, by decide⟩

/-- C3 amended: over the overlapping table the lookup resolves every
address of the shared range to R1, the first entry in insertion order
(not the higher slot), with offset relative to the entry base, and
returns not-found for every address outside all registered regions. -/
theorem locate_overlap_amended (a : Nat) :
    locate overlapTable a =
      (if 0x1000 ≤ a ∧ a < 0x2000 then some (regionR1.slab, a - 0x1000) else none) := by
  by_cases h1 : 0x1000 ≤ a <;> by_cases h2 : a < 0x2000 <;>
    simp [locate, overlapTable, regionR1, regionR2, List.find?, h1, h2]

/-- C10: decoding the control page into a Pause reaches the unreachable
panic exactly when the exit-reason tag is KVM_EXIT_IO and the stored
direction byte is neither KVM_EXIT_IO_IN nor KVM_EXIT_IO_OUT; under the
complementary precondition the decode is total. -/
theorem pause_decode_total_iff (run : Run Exit) :
    pauseFromRun run = none ↔
      run.exit_reason = kvmExitIo ∧ run.exit.io.direction ≠ kvmExitIoIn ∧
        run.exit.io.direction ≠ kvmExitIoOut := by
  unfold pauseFromRun directionFromU8
  split_ifs with h0 h9 h1 h2 hdi hdo h6 h24 h17 h8 <;>
    simp_all

end Kvm
